import Mathlib

/-!
Shallow embedding of `src/entities/clients/files.py` (class `FileClient`), a
synchronous HTTP client for a remote file-storage service.

Modelling choices:
* An HTTP response is a status code, an optional parsed JSON body (`none`
  models a body that `response.json()` fails to decode), and the raw bytes of
  the body (`response.content`).
* Each client method is split into two pure pieces that together model the
  synchronous round trip: the request the method sends (`FileClient.requestOf`,
  which attaches the session headers configured in `__init__`) and the
  processing of the server response (one Lean function per Python method).
* Python exceptions become `Except` errors.  The `try/except` blocks of the
  source translate each exception source to exactly one `ClientError`
  constructor: `pydantic.ValidationError` is re-raised as
  `ValueError("Validation error: ...")` (constructor `validation`),
  `httpx.HTTPStatusError` from `raise_for_status` is re-raised unchanged
  (constructor `transport`), and every other exception is re-raised unchanged
  (constructor `unexpected`).
* `mimetypes.guess_type` is an external black box; the model takes it as an
  explicit function argument `guess : String → Option String`.
-/

namespace Entities

/-- JSON values, as produced by Python's `response.json()`. -/
inductive Json where
  | null : Json
  | bool : Bool → Json
  | num : Int → Json
  | str : String → Json
  | arr : List Json → Json
  | obj : List (String × Json) → Json

/-- Lookup of a key in the key/value list of a JSON object.  When a key occurs
several times the last occurrence wins, as in a Python dict built by
`json.loads`. -/
def lookupLast (kvs : List (String × Json)) (k : String) : Option Json :=
  kvs.foldl (fun acc p => if p.1 = k then some p.2 else acc) none

/-- The three kinds of exception a `FileClient` method can raise, one per
`except` arm of the source:
* `validation detail` — the `ValueError("Validation error: " + detail)` raised
  when `model_validate` rejects the response body;
* `transport status` — the `httpx.HTTPStatusError` raised by
  `response.raise_for_status()` on a non-2xx status, re-raised unchanged;
* `unexpected msg` — any other exception (JSON decode failure, I/O error,
  network failure), re-raised unchanged by the catch-all arm. -/
inductive ClientError where
  | validation : String → ClientError
  | transport : Nat → ClientError
  | unexpected : String → ClientError
deriving DecidableEq

/-- A server response: HTTP status code, the parsed JSON body when the raw
body is valid JSON (`none` otherwise), and the raw body bytes. -/
structure Response where
  status : Nat
  body : Option Json
  content : List Nat

/-- `httpx.Response.is_success`: the status code is in the 2xx range. -/
def Response.is_success (r : Response) : Bool :=
  200 ≤ r.status && r.status < 300

/-- `httpx.Response.raise_for_status()`: succeeds on a 2xx status and raises
`httpx.HTTPStatusError` (modelled as `ClientError.transport`) otherwise. -/
def raise_for_status (r : Response) : Except ClientError Unit :=
  if r.is_success then Except.ok () else Except.error (ClientError.transport r.status)

/-- `response.json()`: returns the parsed body, or raises a decode error that
the catch-all arm re-raises as an unexpected error. -/
def Response.jsonBody (r : Response) : Except ClientError Json :=
  match r.body with
  | some j => Except.ok j
  | none => Except.error (ClientError.unexpected "JSONDecodeError: response body is not valid JSON")

/-- Modelled from the spec: the `FileRecord` shape (section 3) validated by the
external `entities_common` library's `FileResponse` model, which is not part of
this repository.  Fields: identifier, declared purpose, owning user identifier,
original filename, content-type, size, creation timestamp, optional free-form
metadata. -/
structure FileRecord where
  id : String
  purpose : String
  user_id : String
  filename : String
  mime_type : String
  size : Int
  created_at : Int
  metadata : Option Json

/-- Require a string field in a JSON object (missing field and wrong type are
both validation failures). -/
def requireStr (kvs : List (String × Json)) (k : String) : Except String String :=
  match lookupLast kvs k with
  | some (Json.str s) => Except.ok s
  | some _ => Except.error (k ++ ": expected a string")
  | none => Except.error (k ++ ": field required")

/-- Require an integer field in a JSON object. -/
def requireInt (kvs : List (String × Json)) (k : String) : Except String Int :=
  match lookupLast kvs k with
  | some (Json.num n) => Except.ok n
  | some _ => Except.error (k ++ ": expected an integer")
  | none => Except.error (k ++ ": field required")

/-- Modelled from the spec: `FileResponse.model_validate` of the external
`entities_common` validation library (a black box per spec section 1), checking
a JSON value against the `FileRecord` shape of spec section 3.  It either
returns the validated record or fails with a shape-mismatch detail, the
behaviour the source relies on when it catches `pydantic.ValidationError`. -/
def FileResponse_model_validate (j : Json) : Except String FileRecord :=
  match j with
  | Json.obj kvs =>
    match requireStr kvs "id" with
    | Except.error d => Except.error d
    | Except.ok id =>
      match requireStr kvs "purpose" with
      | Except.error d => Except.error d
      | Except.ok purpose =>
        match requireStr kvs "user_id" with
        | Except.error d => Except.error d
        | Except.ok user_id =>
          match requireStr kvs "filename" with
          | Except.error d => Except.error d
          | Except.ok filename =>
            match requireStr kvs "mime_type" with
            | Except.error d => Except.error d
            | Except.ok mime_type =>
              match requireInt kvs "size" with
              | Except.error d => Except.error d
              | Except.ok size =>
                match requireInt kvs "created_at" with
                | Except.error d => Except.error d
                | Except.ok created_at =>
                  Except.ok ⟨id, purpose, user_id, filename, mime_type, size,
                             created_at, lookupLast kvs "metadata"⟩
  | _ => Except.error "input is not an object"

/-- The `file` part of a multipart upload body: the `(filename, file_object,
mime_type)` tuple the source passes to httpx as `files={'file': ...}`. -/
structure FilePart where
  filename : String
  content : List Nat
  contentType : String
deriving DecidableEq

/-- An outbound HTTP request as this client builds it: method, path relative to
the base URL, the session headers, the multipart form fields, and the optional
multipart file part. -/
structure Request where
  method : String
  path : String
  headers : List (String × String)
  formData : List (String × String)
  filePart : Option FilePart
deriving DecidableEq

/-- The content-type of the multipart file part of a request, when the request
has one. -/
def Request.mimeOf (r : Request) : Option String :=
  r.filePart.map FilePart.contentType

/-- The client session configured by `FileClient.__init__`: base URL and
optional API key, both immutable after construction. -/
structure FileClient where
  base_url : String
  api_key : Option String

/-- The headers `__init__` installs on the underlying `httpx.Client`:
`{"Authorization": f"Bearer {self.api_key}"} if self.api_key else {}`.
Python truthiness makes both `None` and the empty string falsy, so the
Authorization header is attached only for a non-empty key. -/
def FileClient.headers (c : FileClient) : List (String × String) :=
  match c.api_key with
  | some k => if k = "" then [] else [("Authorization", "Bearer " ++ k)]
  | none => []

/-- One invocation of a client method, carrying the arguments that determine
the outbound request.  `upload` carries the already-assembled multipart file
part. -/
inductive Operation where
  | upload : FilePart → String → String → Operation
  | retrieve : String → Operation
  | delete : String → Operation
  | download : String → Operation
  | signedUrl : String → Operation
  | base64 : String → Operation

/-- The request a `FileClient` sends for each operation.  Every request is
issued through the one `httpx.Client` created in `__init__`, so every request
carries exactly the session headers `c.headers`. -/
def FileClient.requestOf (c : FileClient) : Operation → Request
  | Operation.upload part user_id purpose =>
    { method := "POST", path := "/v1/uploads", headers := c.headers,
      formData := [("purpose", purpose), ("user_id", user_id)],
      filePart := some part }
  | Operation.retrieve fid =>
    { method := "GET", path := "/v1/uploads/" ++ fid, headers := c.headers,
      formData := [], filePart := none }
  | Operation.delete fid =>
    { method := "DELETE", path := "/v1/uploads/" ++ fid, headers := c.headers,
      formData := [], filePart := none }
  | Operation.download fid =>
    { method := "GET", path := "/v1/uploads/" ++ fid ++ "/object", headers := c.headers,
      formData := [], filePart := none }
  | Operation.signedUrl fid =>
    { method := "GET", path := "/v1/uploads/" ++ fid ++ "/signed-url", headers := c.headers,
      formData := [], filePart := none }
  | Operation.base64 fid =>
    { method := "GET", path := "/v1/uploads/" ++ fid ++ "/base64", headers := c.headers,
      formData := [], filePart := none }

/-- The response-processing shared by `upload_file`, `upload_file_object` and
`retrieve_file`: `raise_for_status()`, then `response.json()`, then
`FileResponse.model_validate`, with `pydantic.ValidationError` re-raised as
`ValueError(f"Validation error: {e}")`. -/
def process_FileResponse (resp : Response) : Except ClientError FileRecord :=
  match raise_for_status resp with
  | Except.error e => Except.error e
  | Except.ok _ =>
    match resp.jsonBody with
    | Except.error e => Except.error e
    | Except.ok j =>
      match FileResponse_model_validate j with
      | Except.ok r => Except.ok r
      | Except.error d => Except.error (ClientError.validation ("Validation error: " ++ d))

/-- `FileClient.retrieve_file`: GET the metadata, raise on non-2xx, parse and
validate the JSON body. -/
def FileClient.retrieve_file (c : FileClient) (resp : Response) :
    Except ClientError FileRecord :=
  process_FileResponse resp

/-- `FileClient.delete_file`: DELETE, raise on non-2xx, and return whatever
`response.json()` decoded, with no further interpretation (the source's `bool`
annotation is not enforced). -/
def FileClient.delete_file (c : FileClient) (resp : Response) :
    Except ClientError Json :=
  match raise_for_status resp with
  | Except.error e => Except.error e
  | Except.ok _ => resp.jsonBody

/-- An in-memory seekable byte buffer, modelling `io.BytesIO`. -/
structure ByteStream where
  data : List Nat
  pos : Nat
deriving DecidableEq

/-- `io.BytesIO(bs)`: a fresh buffer over `bs`, positioned at offset 0. -/
def ByteStream.ofBytes (bs : List Nat) : ByteStream :=
  { data := bs, pos := 0 }

/-- `buffer.read()`: all bytes from the current position, leaving the position
at the end. -/
def ByteStream.read (s : ByteStream) : List Nat × ByteStream :=
  (s.data.drop s.pos, { data := s.data, pos := s.data.length })

/-- `buffer.seek(n)`: reposition the buffer. -/
def ByteStream.seek (s : ByteStream) (n : Nat) : ByteStream :=
  { data := s.data, pos := n }

/-- `FileClient.download_file_as_object`: GET the raw content of `/object`,
raise on non-2xx, and wrap `response.content` in a fresh `io.BytesIO`. -/
def FileClient.download_file_as_object (c : FileClient) (resp : Response) :
    Except ClientError ByteStream :=
  match raise_for_status resp with
  | Except.error e => Except.error e
  | Except.ok _ => Except.ok (ByteStream.ofBytes resp.content)

/-- Python `data.get(key)` on the decoded JSON body: `None` when the key is
absent, the stored value otherwise; an `AttributeError` (caught by the
catch-all arm) when the body is not an object. -/
def pyDictGet (j : Json) (k : String) : Except ClientError (Option Json) :=
  match j with
  | Json.obj kvs => Except.ok (lookupLast kvs k)
  | _ => Except.error (ClientError.unexpected "AttributeError: no attribute get")

/-- `FileClient.get_signed_url`: GET `/signed-url`, raise on non-2xx, then
return `data.get("signed_url")` — no validation, no raise on a missing
field. -/
def FileClient.get_signed_url (c : FileClient) (resp : Response) :
    Except ClientError (Option Json) :=
  match raise_for_status resp with
  | Except.error e => Except.error e
  | Except.ok _ =>
    match resp.jsonBody with
    | Except.error e => Except.error e
    | Except.ok j => pyDictGet j "signed_url"

/-- `FileClient.get_file_as_base64`: GET `/base64`, raise on non-2xx, then
return `data.get("base64")` — no validation, no raise on a missing field. -/
def FileClient.get_file_as_base64 (c : FileClient) (resp : Response) :
    Except ClientError (Option Json) :=
  match raise_for_status resp with
  | Except.error e => Except.error e
  | Except.ok _ =>
    match resp.jsonBody with
    | Except.error e => Except.error e
    | Except.ok j => pyDictGet j "base64"

/-- `os.path.basename` on a POSIX path: the component after the last slash. -/
def basename (p : String) : String :=
  ((p.splitOn "/").getLast?).getD p

/-- The state of the local file handle opened by `upload_file`:
`closed = true` once the `with open(...)` block has exited. -/
structure Handle where
  closed : Bool
deriving DecidableEq

/-- The observable outcome of one `upload_file` call: the request that was
sent (`none` when `open` itself raised, so no request went out), the returned
value or raised error, and the final state of the file handle (`none` when the
file was never opened). -/
structure UploadResult where
  request : Option Request
  result : Except ClientError FileRecord
  handle : Option Handle

/-- `FileClient.upload_file`: infer a content-type from `file_path` (falling
back to `application/octet-stream`), open the file with `with open(file_path,
'rb')`, POST the multipart body, and validate the JSON response.  `guess`
models `mimetypes.guess_type`; `opened` models the result of `open` (`none`
when `open` raises); `sendResult` models the outcome of `self.client.post`
(`none` when the transport raises before producing a response).  The Python
`with` statement closes the handle on every exit from its block — normal
return and every raised exception alike — before any `except` arm runs, which
is why every branch that opened the handle records it closed.  The `metadata`
argument is accepted and never used, exactly as in the source. -/
def FileClient.upload_file (c : FileClient) (guess : String → Option String)
    (file_path : String) (user_id : String) (purpose : String)
    (metadata : Option (List (String × Json)))
    (opened : Option (List Nat)) (sendResult : Option Response) : UploadResult :=
  let filename := basename file_path
  let mime_type := (guess file_path).getD "application/octet-stream"
  match opened with
  | none =>
    { request := none,
      result := Except.error (ClientError.unexpected "OSError: could not open file"),
      handle := none }
  | some bytes =>
    let req := c.requestOf (Operation.upload ⟨filename, bytes, mime_type⟩ user_id purpose)
    match sendResult with
    | none =>
      { request := some req,
        result := Except.error (ClientError.unexpected "httpx.TransportError"),
        handle := some { closed := true } }
    | some resp =>
      { request := some req,
        result := process_FileResponse resp,
        handle := some { closed := true } }

/-- `FileClient.upload_file_object`: same upload flow for a caller-supplied
stream (`file_object` holds the bytes the transport reads from it); the
content-type is inferred from `file_name`, and the client does not manage the
caller's handle.  The `metadata` argument is accepted and never used. -/
def FileClient.upload_file_object (c : FileClient) (guess : String → Option String)
    (file_object : List Nat) (file_name : String) (user_id : String) (purpose : String)
    (metadata : Option (List (String × Json))) (sendResult : Option Response) :
    Request × Except ClientError FileRecord :=
  let mime_type := (guess file_name).getD "application/octet-stream"
  let req := c.requestOf (Operation.upload ⟨file_name, file_object, mime_type⟩ user_id purpose)
  match sendResult with
  | none => (req, Except.error (ClientError.unexpected "httpx.TransportError"))
  | some resp => (req, process_FileResponse resp)

/-- A handle bookkeeping value records no leak: either the file was never
opened, or the handle it produced is closed. -/
def handleReleased : Option Handle → Bool
  | none => true
  | some h => h.closed

end Entities

namespace Entities

/-- Every operation's request carries exactly the session headers configured at
construction. -/
theorem requestOf_headers (c : FileClient) (op : Operation) :
    (c.requestOf op).headers = c.headers := by
  cases op <;> rfl

/-- C1: For every 2xx server response to retrieve whose JSON body does not
conform to the FileRecord shape, `retrieve_file` raises the validation error —
carrying the underlying shape-mismatch detail — and never the catch-all
unexpected error. -/
theorem retrieve_validation_error (c : FileClient) (resp : Response) (j : Json)
    (d : String) (h2 : resp.is_success = true) (hb : resp.body = some j)
    (hv : FileResponse_model_validate j = Except.error d) :
    c.retrieve_file resp
      = Except.error (ClientError.validation ("Validation error: " ++ d))
    ∧ ∀ m, c.retrieve_file resp ≠ Except.error (ClientError.unexpected m) := by
  have h1 : raise_for_status resp = Except.ok () := by
    simp [raise_for_status, h2]
  constructor
  · simp [FileClient.retrieve_file, process_FileResponse, h1, Response.jsonBody, hb, hv]
  · intro m
    simp [FileClient.retrieve_file, process_FileResponse, h1, Response.jsonBody, hb, hv]

theorem retrieve_validation_error_witness :
    (FileClient.mk "http://localhost" none).retrieve_file
        (Response.mk 200 (some (Json.obj [])) [])
      = Except.error (ClientError.validation ("Validation error: " ++ "id: field required"))
    ∧ ∀ m, (FileClient.mk "http://localhost" none).retrieve_file
        (Response.mk 200 (some (Json.obj [])) [])
      ≠ Except.error (ClientError.unexpected m) :=
  retrieve_validation_error (FileClient.mk "http://localhost" none)
    (Response.mk 200 (some (Json.obj [])) []) (Json.obj []) "id: field required"
    (by decide) rfl (by rfl)

/-- C3: For every non-2xx server response, `retrieve_file` raises the
HTTP-status transport error — whatever the body holds — and never a validation
error: body validation is not reached. -/
theorem retrieve_transport_error (c : FileClient) (resp : Response)
    (h : resp.is_success = false) :
    c.retrieve_file resp = Except.error (ClientError.transport resp.status)
    ∧ ∀ d, c.retrieve_file resp ≠ Except.error (ClientError.validation d) := by
  have h1 : raise_for_status resp = Except.error (ClientError.transport resp.status) := by
    simp [raise_for_status, h]
  constructor
  · simp [FileClient.retrieve_file, process_FileResponse, h1]
  · intro d
    simp [FileClient.retrieve_file, process_FileResponse, h1]

theorem retrieve_transport_error_witness :
    (FileClient.mk "http://localhost" none).retrieve_file
        (Response.mk 404 (some (Json.obj [])) [])
      = Except.error (ClientError.transport 404)
    ∧ ∀ d, (FileClient.mk "http://localhost" none).retrieve_file
        (Response.mk 404 (some (Json.obj [])) [])
      ≠ Except.error (ClientError.validation d) :=
  retrieve_transport_error (FileClient.mk "http://localhost" none)
    (Response.mk 404 (some (Json.obj [])) []) (by decide)

/-- C2: For every 2xx response whose JSON body is an object, `get_signed_url`
and `get_file_as_base64` return the named field's value unchanged when it is
present, and return the missing value without raising when it is absent. -/
theorem named_field_passthrough (c : FileClient) (resp : Response)
    (kvs : List (String × Json)) (h2 : resp.is_success = true)
    (hb : resp.body = some (Json.obj kvs)) :
    (lookupLast kvs "signed_url" = none → c.get_signed_url resp = Except.ok none)
    ∧ (∀ v, lookupLast kvs "signed_url" = some v →
        c.get_signed_url resp = Except.ok (some v))
    ∧ (lookupLast kvs "base64" = none → c.get_file_as_base64 resp = Except.ok none)
    ∧ (∀ v, lookupLast kvs "base64" = some v →
        c.get_file_as_base64 resp = Except.ok (some v)) := by
  have h1 : raise_for_status resp = Except.ok () := by
    simp [raise_for_status, h2]
  refine ⟨fun hm => ?_, fun v hm => ?_, fun hm => ?_, fun v hm => ?_⟩ <;>
    simp [FileClient.get_signed_url, FileClient.get_file_as_base64, h1,
          Response.jsonBody, hb, pyDictGet, hm]

theorem named_field_passthrough_witness :
    (FileClient.mk "http://localhost" none).get_signed_url
        (Response.mk 200 (some (Json.obj [("signed_url", Json.str "u")])) [])
      = Except.ok (some (Json.str "u"))
    ∧ (FileClient.mk "http://localhost" none).get_file_as_base64
        (Response.mk 200 (some (Json.obj [("signed_url", Json.str "u")])) [])
      = Except.ok none :=
  ⟨(named_field_passthrough (FileClient.mk "http://localhost" none)
      (Response.mk 200 (some (Json.obj [("signed_url", Json.str "u")])) [])
      [("signed_url", Json.str "u")] (by decide) rfl).2.1 (Json.str "u") (by rfl),
   (named_field_passthrough (FileClient.mk "http://localhost" none)
      (Response.mk 200 (some (Json.obj [("signed_url", Json.str "u")])) [])
      [("signed_url", Json.str "u")] (by decide) rfl).2.2.1 (by rfl)⟩

/-- C4: For every 2xx server response to delete, `delete_file` returns the
decoded JSON body verbatim, with no interpretation or coercion. -/
theorem delete_passthrough (c : FileClient) (resp : Response) (j : Json)
    (h2 : resp.is_success = true) (hb : resp.body = some j) :
    c.delete_file resp = Except.ok j := by
  have h1 : raise_for_status resp = Except.ok () := by
    simp [raise_for_status, h2]
  simp [FileClient.delete_file, h1, Response.jsonBody, hb]

theorem delete_passthrough_witness :
    (FileClient.mk "http://localhost" none).delete_file
        (Response.mk 200 (some (Json.bool true)) [])
      = Except.ok (Json.bool true) :=
  delete_passthrough (FileClient.mk "http://localhost" none)
    (Response.mk 200 (some (Json.bool true)) []) (Json.bool true) (by decide) rfl

/-- C5: For every 2xx server response, `download_file_as_object` returns a
buffer positioned at offset 0 whose full read yields exactly the bytes the
server returned. -/
theorem download_buffer (c : FileClient) (resp : Response)
    (h2 : resp.is_success = true) :
    ∃ s : ByteStream, c.download_file_as_object resp = Except.ok s
      ∧ s.pos = 0 ∧ (s.read).1 = resp.content := by
  have h1 : raise_for_status resp = Except.ok () := by
    simp [raise_for_status, h2]
  refine ⟨ByteStream.ofBytes resp.content, ?_, rfl, ?_⟩
  · simp [FileClient.download_file_as_object, h1]
  · simp [ByteStream.ofBytes, ByteStream.read]

theorem download_buffer_witness :
    ∃ s : ByteStream,
      (FileClient.mk "http://localhost" none).download_file_as_object
          (Response.mk 200 none [7, 8, 9])
        = Except.ok s
      ∧ s.pos = 0 ∧ (s.read).1 = [7, 8, 9] :=
  download_buffer (FileClient.mk "http://localhost" none)
    (Response.mk 200 none [7, 8, 9]) (by decide)

/-- C6: For every call to `upload_file` — success, non-2xx status, validation
failure, transport exception, even failure of `open` itself — the file handle
is released by the time the call returns: the recorded handle state is never
an open handle. -/
theorem upload_file_releases_handle (c : FileClient) (guess : String → Option String)
    (file_path user_id purpose : String) (metadata : Option (List (String × Json)))
    (opened : Option (List Nat)) (sendResult : Option Response) :
    handleReleased
      (c.upload_file guess file_path user_id purpose metadata opened sendResult).handle
      = true := by
  cases opened <;> cases sendResult <;> rfl

/-- C8: For both upload operations, the content-type of the multipart file
part is the one inferred from the name the source passes to
`mimetypes.guess_type` (the path for `upload_file`, the logical filename for
`upload_file_object`), with `application/octet-stream` whenever inference
returns nothing. -/
theorem upload_mime_type (c : FileClient) (guess : String → Option String)
    (file_path file_name user_id purpose : String)
    (metadata : Option (List (String × Json))) (bytes : List Nat)
    (sendResult : Option Response) :
    ((c.upload_file guess file_path user_id purpose metadata (some bytes)
        sendResult).request).map Request.mimeOf
      = some (some ((guess file_path).getD "application/octet-stream"))
    ∧ Request.mimeOf
        (c.upload_file_object guess bytes file_name user_id purpose metadata
          sendResult).1
      = some ((guess file_name).getD "application/octet-stream") := by
  cases sendResult <;> exact ⟨rfl, rfl⟩

/-- C9: For both upload operations, two calls differing only in the metadata
argument (including omitted versus supplied) send the identical request and
produce the identical result: metadata has no effect on behaviour. -/
theorem upload_metadata_no_effect (c : FileClient) (guess : String → Option String)
    (file_path file_name user_id purpose : String)
    (m1 m2 : Option (List (String × Json))) (opened : Option (List Nat))
    (bytes : List Nat) (sendResult : Option Response) :
    c.upload_file guess file_path user_id purpose m1 opened sendResult
      = c.upload_file guess file_path user_id purpose m2 opened sendResult
    ∧ c.upload_file_object guess bytes file_name user_id purpose m1 sendResult
      = c.upload_file_object guess bytes file_name user_id purpose m2 sendResult :=
  ⟨rfl, rfl⟩

/-- C7 as stated is false: a client constructed with the empty string as its
credential does not attach the Authorization header, because the source guards
the header with Python truthiness (`if self.api_key`), not with presence. -/
theorem bearer_header_claim_counterexample :
    ¬ ∀ (c : FileClient) (op : Operation) (k : String),
        c.api_key = some k →
        ("Authorization", "Bearer " ++ k) ∈ (c.requestOf op).headers := by
  intro h
  have h0 := h (FileClient.mk "http://localhost" (some ""))
    (Operation.retrieve "f1") "" rfl
  simp [FileClient.requestOf, FileClient.headers] at h0

/-- C7 amended: every request of every operation carries
`Authorization: Bearer <token>` when the credential supplied at construction
is a non-empty string, and carries no Authorization header at all when no
credential or an empty one was supplied. -/
theorem bearer_header_amended (c : FileClient) (op : Operation) :
    (∀ k, c.api_key = some k → k ≠ "" →
        (c.requestOf op).headers = [("Authorization", "Bearer " ++ k)])
    ∧ ((c.api_key = none ∨ c.api_key = some "") →
        ∀ p ∈ (c.requestOf op).headers, p.1 ≠ "Authorization") := by
  rw [requestOf_headers]
  constructor
  · intro k hk hne
    simp [FileClient.headers, hk, hne]
  · rintro (hk | hk) <;> simp [FileClient.headers, hk]

theorem bearer_header_amended_witness :
    ((FileClient.mk "http://localhost" (some "tok")).requestOf
        (Operation.retrieve "f1")).headers
      = [("Authorization", "Bearer " ++ "tok")]
    ∧ ∀ p ∈ ((FileClient.mk "http://localhost" none).requestOf
        (Operation.retrieve "f1")).headers, p.1 ≠ "Authorization" :=
  ⟨(bearer_header_amended (FileClient.mk "http://localhost" (some "tok"))
      (Operation.retrieve "f1")).1 "tok" rfl (by decide),
   (bearer_header_amended (FileClient.mk "http://localhost" none)
      (Operation.retrieve "f1")).2 (Or.inl rfl)⟩

/-- C10: A client constructed with the empty string as its credential sends,
for every operation, exactly the request of a client constructed with no
credential — in particular no Authorization header — and, over all clients, an
Authorization header is present only when the credential is a non-empty
string. -/
theorem empty_api_key_no_auth_header (base : String) (op : Operation) :
    (FileClient.mk base (some "")).requestOf op
      = (FileClient.mk base none).requestOf op
    ∧ (∀ p ∈ ((FileClient.mk base (some "")).requestOf op).headers,
        p.1 ≠ "Authorization")
    ∧ (∀ c : FileClient, (∃ p ∈ (c.requestOf op).headers, p.1 = "Authorization") →
        ∃ k, c.api_key = some k ∧ k ≠ "") := by
  refine ⟨?_, ?_, ?_⟩
  · cases op <;> simp [FileClient.requestOf, FileClient.headers]
  · rw [requestOf_headers]
    simp [FileClient.headers]
  · intro c hc
    rw [requestOf_headers] at hc
    rcases c with ⟨b, k⟩
    match k with
    | none => simp [FileClient.headers] at hc
    | some kv =>
      by_cases hkv : kv = ""
      · simp [FileClient.headers, hkv] at hc
      · exact ⟨kv, rfl, hkv⟩

theorem empty_api_key_no_auth_header_witness :
    ∀ p ∈ ((FileClient.mk "http://localhost" (some "")).requestOf
        (Operation.delete "f2")).headers, p.1 ≠ "Authorization" :=
  (empty_api_key_no_auth_header "http://localhost" (Operation.delete "f2")).2.1

end Entities
